import Mathlib

/-!
Verification of the snapshot engine in `tk_multi_snapshot/snapshot.py`.

The Python module is shallowly embedded: the world (filesystem plus log
channels) is explicit state, external collaborators (hooks, template
resolver, path listing) are function-valued parameters, and exceptions are
modelled with `Except`.  Each embedded definition mirrors one Python
function of the `Snapshot` class.
-/

set_option autoImplicit false

namespace TkSnapshot

abbrev Path := String
abbrev Err := String

/-- A value stored in a template field mapping: Python int, str or None. -/
inductive FVal where
  | intV (n : Int)
  | strV (s : String)
  | noneV
deriving DecidableEq, Repr

/-- Python truthiness of a field value (`if timestamp:` etc.). -/
def FVal.truthy : FVal → Bool
  | .intV n => n ≠ 0
  | .strV s => s ≠ ""
  | .noneV => false

/-- Field mappings and yaml mappings are insertion-ordered dictionaries,
modelled as association lists. -/
def alookup {β : Type} : List (String × β) → String → Option β
  | [], _ => none
  | (k, v) :: rest, key => if k = key then some v else alookup rest key

/-- Dictionary assignment `d[key] = v`: replace in place, append if absent. -/
def aset {β : Type} : List (String × β) → String → β → List (String × β)
  | [], key, v => [(key, v)]
  | (k, w) :: rest, key, v =>
      if k = key then (key, v) :: rest else (k, w) :: aset rest key v

abbrev Fields := List (String × FVal)

/-- The slice of the tank `Template` API that `snapshot.py` consumes. -/
structure Template where
  keys : List String
  validate : Path → Bool
  get_fields : Path → Fields
  apply_fields : Fields → Path

/-- On-disk file content: opaque bytes, a yaml mapping as written by
`yaml.dump`, or corrupt/unparsable yaml. -/
inductive Content where
  | blob (data : String)
  | yamlMap (entries : List (String × String))
  | badYaml
deriving DecidableEq, Repr

/-- Filesystem contents plus the app's log channels. -/
structure World where
  files : List (Path × Content)
  log_warnings : List String
  log_debugs : List String
deriving DecidableEq, Repr

def pathExists (w : World) (p : Path) : Bool :=
  (alookup w.files p).isSome

def writeFile (w : World) (p : Path) (c : Content) : World :=
  { w with files := aset w.files p c }

def logW (w : World) (m : String) : World :=
  { w with log_warnings := w.log_warnings ++ [m] }

def logD (w : World) (m : String) : World :=
  { w with log_debugs := w.log_debugs ++ [m] }

/-- `yaml.load` on a comments file: a mapping parses, anything else raises. -/
def yamlLoad : Content → Except Err (List (String × String))
  | .yamlMap e => .ok e
  | .badYaml => .error "yaml.load: could not parse comments file"
  | .blob _ => .error "yaml.load: could not parse comments file"

/-- External collaborators of the `Snapshot` class: the two templates, the
scene-operation / copy hooks and `tank.paths_from_template`. -/
structure App where
  work_template : Template
  snapshot_template : Template
  save_hook : World → Except Err World
  copy_hook : Path → Path → World → Except Err World
  open_hook : Path → World → Except Err World
  thumb_hook : Path → World → Except Err World
  paths_from_template : Fields → List String → List Path

/-- `os.path.dirname` / `os.path.basename` / `os.path.splitext` are built on
splitting at the last occurrence of a character; returns (before, after). -/
def splitAtLastChar (c : Char) : List Char → Option (List Char × List Char)
  | [] => none
  | x :: xs =>
      match splitAtLastChar c xs with
      | some (a, b) => some (x :: a, b)
      | none => if x = c then some ([], xs) else none

def dirname (s : String) : String :=
  match splitAtLastChar '/' s.data with
  | some (a, _) => ⟨a⟩
  | none => ""

def basename (s : String) : String :=
  match splitAtLastChar '/' s.data with
  | some (_, b) => ⟨b⟩
  | none => s

/-- First component of `os.path.splitext`: drop the final extension. -/
def stripExt (s : String) : String :=
  match splitAtLastChar '.' s.data with
  | some (a, _) => ⟨a⟩
  | none => s

/-- Digit-string to number, `none` if empty or non-numeric. -/
def parseNatDigits : List Char → Option Nat
  | [] => none
  | cs =>
      if cs.all Char.isDigit then
        some (cs.foldl (fun acc c => acc * 10 + (c.toNat - 48)) 0)
      else none

def splitOnChar (c : Char) (l : List Char) : List (List Char) :=
  match l with
  | [] => [[]]
  | x :: xs =>
      let rest := splitOnChar c xs
      if x = c then [] :: rest
      else
        match rest with
        | [] => [[x]]
        | r :: rs => (x :: r) :: rs

/-- A parsed timestamp: year, month, day, hour, minute, second. -/
abbrev DT6 := Nat × Nat × Nat × Nat × Nat × Nat

/-- `datetime.strptime(s, "%Y-%m-%d-%H-%M-%S")`: six dash-separated numeric
components with calendar-plausible ranges, `none` when it would raise. -/
def strptimeTS (s : String) : Option DT6 :=
  match splitOnChar '-' s.data with
  | [y, mo, d, h, mi, se] =>
      match parseNatDigits y, parseNatDigits mo, parseNatDigits d,
            parseNatDigits h, parseNatDigits mi, parseNatDigits se with
      | some y', some mo', some d', some h', some mi', some se' =>
          if 1 ≤ mo' ∧ mo' ≤ 12 ∧ 1 ≤ d' ∧ d' ≤ 31 ∧ h' ≤ 23 ∧ mi' ≤ 59 ∧ se' ≤ 59 then
            some (y', mo', d', h', mi', se')
          else none
      | _, _, _, _, _, _ => none
  | _ => none

/-- `Snapshot._find_next_snapshot_increment`: the body is `pass`, so the
call returns `None` for every input. -/
def find_next_snapshot_increment (snapshot_fields : Fields) : Option Int :=
  none

/-- `Snapshot._get_thumbnail_file_path`. -/
def get_thumbnail_file_path (snapshot_file_path : Path) : Path :=
  stripExt snapshot_file_path ++ ".tank_thumb.png"

/-- `Snapshot._get_comments_file_path`: fields of the snapshot path with
`version` forced to 0, re-applied through the work template; the store sits
next to the snapshot under `<work title>.tank_comments.yml`. -/
def get_comments_file_path (A : App) (snapshot_file_path : Path) : Path :=
  let snapshot_dir := dirname snapshot_file_path
  let fields := A.snapshot_template.get_fields snapshot_file_path
  let fields := aset fields "version" (FVal.intV 0)
  let work_path := A.work_template.apply_fields fields
  let work_file_name := basename work_path
  let work_file_title := stripExt work_file_name
  snapshot_dir ++ "/" ++ work_file_title ++ ".tank_comments.yml"

/-- `Snapshot._add_snapshot_comment`. -/
def add_snapshot_comment (A : App) (snapshot_file_path : Path) (comment : String)
    (w : World) : Except Err World :=
  if !(A.snapshot_template.validate snapshot_file_path) then
    .ok (logW w ("Could not add comment to invalid snapshot path "
                 ++ snapshot_file_path ++ "!"))
  else
    let comments_file_path := get_comments_file_path A snapshot_file_path
    let w := logD w ("Snapshot: Adding comment to file " ++ comments_file_path)
    match (if pathExists w comments_file_path then
             yamlLoad ((alookup w.files comments_file_path).getD Content.badYaml)
           else .ok []) with
    | .error e => .error e
    | .ok comments =>
        let comments_key := basename snapshot_file_path
        let comments := aset comments comments_key comment
        .ok (writeFile w comments_file_path (.yamlMap comments))

/-- `Snapshot._get_snapshot_comments`. -/
def get_snapshot_comments (A : App) (file_path : Path) (w : World) :
    Except Err (List (String × String)) :=
  let comments_file_path := get_comments_file_path A file_path
  if pathExists w comments_file_path then
    yamlLoad ((alookup w.files comments_file_path).getD Content.badYaml)
  else
    .ok []

/-- Fields used to build the snapshot path in `do_snapshot`: work-file
fields plus the timestamp, plus `increment` when the snapshot template has
that key (set to whatever the stubbed allocator returned). -/
def snapshot_fields (A : App) (now_ts : String) (work_path : Path) : Fields :=
  let fields := aset (A.work_template.get_fields work_path) "timestamp" (FVal.strV now_ts)
  if "increment" ∈ A.snapshot_template.keys then
    aset fields "increment"
      (match find_next_snapshot_increment [] with
       | some n => FVal.intV n
       | none => FVal.noneV)
  else fields

def snapshot_path_of (A : App) (now_ts : String) (work_path : Path) : Path :=
  A.snapshot_template.apply_fields (snapshot_fields A now_ts work_path)

/-- `Snapshot.do_snapshot`.  `now_ts` stands for
`datetime.now().strftime(TIMESTAMP_FMT)`; `thumbnail` for the truthiness of
the pixmap argument. -/
def do_snapshot (A : App) (now_ts : String) (work_path : Path)
    (thumbnail : Bool) (comment : Option String) (w : World) : Except Err World :=
  match A.save_hook w with
  | .error e => .error e
  | .ok w =>
      if !(pathExists w work_path) then
        .error ("Snapshot: Work file " ++ work_path ++ " could not be found on disk!")
      else if !(A.work_template.validate work_path) then
        .error ("Unable to snapshot non-work file " ++ work_path)
      else
        let snapshot_path := snapshot_path_of A now_ts work_path
        let w := logD w ("Snapshot: Copying " ++ work_path ++ " --> " ++ snapshot_path)
        match A.copy_hook work_path snapshot_path w with
        | .error e => .error e
        | .ok w =>
            if !(pathExists w snapshot_path) then
              .error ("Snapshot: Failed to copy work file from '" ++ work_path
                      ++ "' to '" ++ snapshot_path ++ "'")
            else
              match (match comment with
                     | some c => if c ≠ "" then add_snapshot_comment A snapshot_path c w
                                 else .ok w
                     | none => .ok w) with
              | .error e => .error e
              | .ok w => if thumbnail then A.thumb_hook snapshot_path w else .ok w

/-- The synthetic comment used for the automatic pre-restore backup. -/
def autoRestoreComment (snapshot_path : Path) : String :=
  "Automatic snapshot before restoring older snapshot '"
    ++ basename snapshot_path ++ "'"

/-- Tail of `restore_snapshot` after the optional safety snapshot: copy the
snapshot over the work path and re-open it. -/
def restore_copy_and_open (A : App) (snapshot_path work_path : Path) (w : World) :
    Except Err World :=
  let w := logD w ("Snapshot Restore: Copying " ++ work_path ++ " --> " ++ snapshot_path)
  match A.copy_hook snapshot_path work_path w with
  | .error e => .error e
  | .ok w =>
      let w := logD w ("Snapshot Restore: Opening " ++ work_path)
      A.open_hook work_path w

/-- `Snapshot.restore_snapshot`. -/
def restore_snapshot (A : App) (now_ts : String) (snapshot_path : Path)
    (w : World) : Except Err World :=
  if snapshot_path = "" then .ok w
  else
    match A.save_hook w with
    | .error e => .error e
    | .ok w =>
        if !(A.snapshot_template.validate snapshot_path) then
          .error (snapshot_path ++ " is not a valid snapshot path!")
        else
          let fields := A.snapshot_template.get_fields snapshot_path
          let work_path := A.work_template.apply_fields fields
          match (if pathExists w work_path then
                   do_snapshot A now_ts work_path false
                     (some (autoRestoreComment snapshot_path)) w
                 else .ok w) with
          | .error e => .error e
          | .ok w => restore_copy_and_open A snapshot_path work_path w

/-- One record of `find_snapshot_history`'s result. -/
structure HistoryEntry where
  file : Path
  comment : String
  thumbnail_path : Path
  version : Option FVal
  increment : Option FVal
  datetime : Option DT6
deriving DecidableEq, Repr

/-- One iteration of the history loop body. -/
def build_history_entry (A : App) (comments : List (String × String))
    (file : Path) : Except Err HistoryEntry :=
  let fields := A.snapshot_template.get_fields file
  let base : HistoryEntry :=
    { file := file
      comment := (alookup comments (basename file)).getD ""
      thumbnail_path := get_thumbnail_file_path file
      version := alookup fields "version"
      increment := alookup fields "increment"
      datetime := none }
  match alookup fields "timestamp" with
  | some ts =>
      if ts.truthy then
        match ts with
        | .strV s =>
            match strptimeTS s with
            | some d => .ok { base with datetime := some d }
            | none =>
                .error ("ValueError: time data '" ++ s
                        ++ "' does not match format '%Y-%m-%d-%H-%M-%S'")
        | _ => .error "TypeError: strptime() argument 1 must be str"
      else .ok base
  | none => .ok base

def history_loop (A : App) (comments : List (String × String)) :
    List Path → Except Err (List HistoryEntry)
  | [] => .ok []
  | f :: rest =>
      match build_history_entry A comments f with
      | .error e => .error e
      | .ok entry =>
          match history_loop A comments rest with
          | .error e => .error e
          | .ok tl => .ok (entry :: tl)

/-- `Snapshot.find_snapshot_history`. -/
def find_snapshot_history (A : App) (file_path : Path) (w : World) :
    Except Err (List HistoryEntry) :=
  if file_path = "" then .ok []
  else
    match (if A.work_template.validate file_path then
             some (A.work_template.get_fields file_path)
           else if A.snapshot_template.validate file_path then
             some (A.snapshot_template.get_fields file_path)
           else none) with
    | none => .ok []
    | some fields =>
        match A.paths_from_template fields ["version", "timestamp", "increment"] with
        | [] => .ok []
        | f0 :: rest =>
            match get_snapshot_comments A f0 w with
            | .error e => .error e
            | .ok comments => history_loop A comments (f0 :: rest)

/-! ### Concrete collaborator instances used to exercise the embedding -/

/-- An `App` with identity/no-op hooks around the given templates. -/
def mkApp (wt st : Template) (pf : Fields → List String → List Path) : App :=
  { work_template := wt
    snapshot_template := st
    save_hook := fun w => .ok w
    copy_hook := fun _ _ w => .ok w
    open_hook := fun _ w => .ok w
    thumb_hook := fun _ w => .ok w
    paths_from_template := pf }

def wtMain : Template :=
  { keys := ["version"]
    validate := fun p => decide (p = "d/W.ma")
    get_fields := fun _ => [("version", FVal.intV 1)]
    apply_fields := fun f =>
      if alookup f "version" = some (FVal.intV 0) then "d/W.v0.ma" else "d/W.ma" }

def stMain : Template :=
  { keys := ["version", "timestamp", "increment"]
    validate := fun p => decide (p = "d/S.ma")
    get_fields := fun _ => [("version", FVal.intV 1)]
    apply_fields := fun _ => "d/S2.ma" }

/-- Snapshot template whose paths carry a timestamp field that does not
parse with the fixed format. -/
def stBadTs : Template :=
  { keys := ["version", "timestamp"]
    validate := fun p => decide (p = "d/S.ma")
    get_fields := fun _ => [("version", FVal.intV 1), ("timestamp", FVal.strV "not-a-timestamp")]
    apply_fields := fun _ => "d/S2.ma" }

def appMain : App := mkApp wtMain stMain (fun _ _ => [])

def appBadTs : App := mkApp wtMain stBadTs (fun _ _ => ["d/S.ma"])

def wEmpty : World := { files := [], log_warnings := [], log_debugs := [] }

def wMain : World :=
  { files := [("d/W.ma", Content.blob "work")], log_warnings := [], log_debugs := [] }

/-- A world whose comments store for `appMain`'s family is corrupt. -/
def wBad : World :=
  { files := [("d/W.v0.tank_comments.yml", Content.badYaml)]
    log_warnings := [], log_debugs := [] }

/-- The world produced by a first successful comment write on `wEmpty`. -/
def wAfterComment : World :=
  writeFile
    (logD wEmpty "Snapshot: Adding comment to file d/W.v0.tank_comments.yml")
    "d/W.v0.tank_comments.yml" (.yamlMap [("S.ma", "hello")])

/-! ### Association-list and world lemmas -/

theorem alookup_aset_self {β : Type} (l : List (String × β)) (k : String) (v : β) :
    alookup (aset l k v) k = some v := by
  induction l with
  | nil => simp [aset, alookup]
  | cons p rest ih =>
      obtain ⟨k', v'⟩ := p
      by_cases h : k' = k
      · simp [aset, h, alookup]
      · simp [aset, h, alookup, ih]

theorem alookup_aset_ne {β : Type} (l : List (String × β)) (k k' : String) (v : β)
    (h : k' ≠ k) : alookup (aset l k v) k' = alookup l k' := by
  induction l with
  | nil => simp [aset, alookup, Ne.symm h]
  | cons p rest ih =>
      obtain ⟨k'', v''⟩ := p
      by_cases hk : k'' = k
      · subst hk
        simp [aset, alookup, Ne.symm h]
      · simp [aset, hk, alookup, ih]

theorem aset_eq_of_alookup {β : Type} (l : List (String × β)) (k : String) (v : β)
    (h : alookup l k = some v) : aset l k v = l := by
  induction l with
  | nil => simp [alookup] at h
  | cons p rest ih =>
      obtain ⟨k', v'⟩ := p
      by_cases hk : k' = k
      · subst hk
        simp [alookup] at h
        simp [aset, h]
      · simp [alookup, hk] at h
        simp [aset, hk, ih h]

theorem aset_aset_self {β : Type} (l : List (String × β)) (k : String) (v : β) :
    aset (aset l k v) k v = aset l k v :=
  aset_eq_of_alookup _ _ _ (alookup_aset_self l k v)

@[simp] theorem logD_files (w : World) (m : String) : (logD w m).files = w.files := rfl

@[simp] theorem logW_files (w : World) (m : String) : (logW w m).files = w.files := rfl

@[simp] theorem writeFile_files (w : World) (p : Path) (c : Content) :
    (writeFile w p c).files = aset w.files p c := rfl

theorem pathExists_eq (w : World) (p : Path) :
    pathExists w p = (alookup w.files p).isSome := rfl

/-- Unfolding of `add_snapshot_comment` on an invalid snapshot path. -/
theorem add_snapshot_comment_invalid_eq (A : App) (p c : String) (w : World)
    (hval : A.snapshot_template.validate p = false) :
    add_snapshot_comment A p c w =
      .ok (logW w ("Could not add comment to invalid snapshot path " ++ p ++ "!")) := by
  unfold add_snapshot_comment
  rw [hval]
  rfl

/-- Unfolding of `add_snapshot_comment` on a valid snapshot path. -/
theorem add_snapshot_comment_valid_eq (A : App) (p c : String) (w : World)
    (hval : A.snapshot_template.validate p = true) :
    add_snapshot_comment A p c w =
      match (if pathExists w (get_comments_file_path A p) then
               yamlLoad ((alookup w.files (get_comments_file_path A p)).getD .badYaml)
             else .ok []) with
      | .error e => .error e
      | .ok comments =>
          .ok (writeFile
                (logD w ("Snapshot: Adding comment to file " ++ get_comments_file_path A p))
                (get_comments_file_path A p)
                (.yamlMap (aset comments (basename p) c))) := by
  unfold add_snapshot_comment
  rw [hval]
  rfl

/-! ### Claim theorems -/

/-- C2: the spec requires the increment allocator to return
`max(existing increments) + 1` (or 1 for an empty family, skipping
non-numeric entries), but `_find_next_snapshot_increment`'s body is `pass`:
it returns `None` for every input, and `do_snapshot` consequently stores
`None` in the `increment` field whenever the snapshot template has that
key. -/
theorem find_next_snapshot_increment_is_stub (f : Fields) (A : App) (ts wp : Path)
    (h : "increment" ∈ A.snapshot_template.keys) :
    find_next_snapshot_increment f = none ∧
    alookup (snapshot_fields A ts wp) "increment" = some FVal.noneV := by
  refine ⟨rfl, ?_⟩
  unfold snapshot_fields
  simp [h, find_next_snapshot_increment, alookup_aset_self]

/-- Witness for C2 at a concrete template whose keys include `increment`. -/
theorem find_next_snapshot_increment_is_stub_witness :
    find_next_snapshot_increment [] = none ∧
    alookup (snapshot_fields appMain "2024-01-02-03-04-05" "d/W.ma") "increment"
      = some FVal.noneV :=
  find_next_snapshot_increment_is_stub [] appMain "2024-01-02-03-04-05" "d/W.ma"
    (by simp [appMain, mkApp, stMain])

/-- C10: on a path that fails snapshot-template validation,
`_add_snapshot_comment` logs a warning and returns without raising, leaving
every file unchanged. -/
theorem add_snapshot_comment_invalid_noop (A : App) (p c : String) (w : World)
    (hval : A.snapshot_template.validate p = false) :
    add_snapshot_comment A p c w =
      .ok (logW w ("Could not add comment to invalid snapshot path " ++ p ++ "!")) ∧
    (logW w ("Could not add comment to invalid snapshot path " ++ p ++ "!")).files
      = w.files :=
  ⟨add_snapshot_comment_invalid_eq A p c w hval, rfl⟩

/-- Witness for C10: `stMain` rejects `"x"`. -/
theorem add_snapshot_comment_invalid_noop_witness :
    add_snapshot_comment appMain "x" "hello" wEmpty =
      .ok (logW wEmpty ("Could not add comment to invalid snapshot path " ++ "x" ++ "!")) ∧
    (logW wEmpty ("Could not add comment to invalid snapshot path " ++ "x" ++ "!")).files
      = wEmpty.files :=
  add_snapshot_comment_invalid_noop appMain "x" "hello" wEmpty rfl

/-- C7: after a successful save, `do_snapshot` fails with the
source-not-found error when the work path is missing on disk, and with the
invalid-work-file error when the path does not validate against the work
template; in both cases the result is the same for every possible copy
hook, i.e. no copy to a snapshot path is performed. -/
theorem do_snapshot_precondition_failures (A : App) (ts wp : Path) (th : Bool)
    (c : Option String) (w w1 : World)
    (hsave : A.save_hook w = .ok w1) :
    (pathExists w1 wp = false →
      ∀ ch, do_snapshot { A with copy_hook := ch } ts wp th c w =
        .error ("Snapshot: Work file " ++ wp ++ " could not be found on disk!")) ∧
    (pathExists w1 wp = true → A.work_template.validate wp = false →
      ∀ ch, do_snapshot { A with copy_hook := ch } ts wp th c w =
        .error ("Unable to snapshot non-work file " ++ wp)) := by
  constructor
  · intro hex ch
    unfold do_snapshot
    simp only []
    rw [show ({ A with copy_hook := ch } : App).save_hook = A.save_hook from rfl, hsave]
    simp [hex]
  · intro hex hval ch
    unfold do_snapshot
    rw [show ({ A with copy_hook := ch } : App).save_hook = A.save_hook from rfl, hsave]
    simp [hex, hval]

/-- Witness for C7: missing work file on an empty world. -/
theorem do_snapshot_precondition_failures_witness :
    do_snapshot { appMain with copy_hook := fun _ _ w => .ok w }
        "2024-01-02-03-04-05" "d/W.ma" false none wEmpty =
      .error ("Snapshot: Work file " ++ "d/W.ma" ++ " could not be found on disk!") :=
  (do_snapshot_precondition_failures appMain "2024-01-02-03-04-05" "d/W.ma" false none
      wEmpty wEmpty rfl).1 rfl (fun _ _ w => .ok w)

/-- C5: even when the copy hook reports success, `do_snapshot` checks that
the derived snapshot path exists and raises the copy-verification error
when it does not. -/
theorem do_snapshot_verifies_copy (A : App) (ts wp : Path) (th : Bool)
    (c : Option String) (w w1 w2 : World)
    (hsave : A.save_hook w = .ok w1)
    (hex : pathExists w1 wp = true)
    (hval : A.work_template.validate wp = true)
    (hcopy : A.copy_hook wp (snapshot_path_of A ts wp)
        (logD w1 ("Snapshot: Copying " ++ wp ++ " --> " ++ snapshot_path_of A ts wp))
      = .ok w2)
    (hmiss : pathExists w2 (snapshot_path_of A ts wp) = false) :
    do_snapshot A ts wp th c w =
      .error ("Snapshot: Failed to copy work file from '" ++ wp ++ "' to '"
              ++ snapshot_path_of A ts wp ++ "'") := by
  unfold do_snapshot
  rw [hsave]
  simp [hex, hval, hcopy, hmiss]

/-- Witness for C5: the no-op copy hook reports success but creates
nothing. -/
theorem do_snapshot_verifies_copy_witness :
    do_snapshot appMain "2024-01-02-03-04-05" "d/W.ma" false none wMain =
      .error ("Snapshot: Failed to copy work file from '" ++ "d/W.ma" ++ "' to '"
              ++ snapshot_path_of appMain "2024-01-02-03-04-05" "d/W.ma" ++ "'") :=
  do_snapshot_verifies_copy appMain "2024-01-02-03-04-05" "d/W.ma" false none
    wMain wMain _ rfl rfl rfl rfl rfl

/-- C6: `find_snapshot_history` returns an empty history without raising
when neither template validates the path, and returns an empty history for
every world state (in particular without reading any metadata store file)
as soon as the snapshot-path listing is empty. -/
theorem find_snapshot_history_empty_cases (A : App) (p : Path) :
    (∀ w, A.work_template.validate p = false → A.snapshot_template.validate p = false →
       find_snapshot_history A p w = .ok []) ∧
    (∀ w, A.work_template.validate p = true →
       A.paths_from_template (A.work_template.get_fields p)
         ["version", "timestamp", "increment"] = [] →
       find_snapshot_history A p w = .ok []) ∧
    (∀ w, A.work_template.validate p = false → A.snapshot_template.validate p = true →
       A.paths_from_template (A.snapshot_template.get_fields p)
         ["version", "timestamp", "increment"] = [] →
       find_snapshot_history A p w = .ok []) := by
  refine ⟨?_, ?_, ?_⟩
  · intro w h1 h2
    unfold find_snapshot_history
    by_cases hp : p = "" <;> simp [hp, h1, h2]
  · intro w h1 hlist
    unfold find_snapshot_history
    by_cases hp : p = "" <;> simp [hp, h1, hlist]
  · intro w h1 h2 hlist
    unfold find_snapshot_history
    by_cases hp : p = "" <;> simp [hp, h1, h2, hlist]

/-- Witness for C6: a path neither template accepts, over a world whose
only file is a corrupt metadata store (which would raise if it were
read). -/
theorem find_snapshot_history_empty_cases_witness :
    find_snapshot_history appMain "/not/a/template/path" wBad = .ok [] :=
  (find_snapshot_history_empty_cases appMain "/not/a/template/path").1 wBad rfl rfl

/-- C1: when the derived work path exists after the initial save,
`restore_snapshot` runs the full `do_snapshot` flow on it with the
synthetic pre-restore backup comment; if that safety snapshot raises, the
restore returns the same error without reaching the copy-and-open tail,
and if it succeeds the restore continues with the copy-and-open tail. -/
theorem restore_takes_safety_snapshot (A : App) (ts sp : Path) (w w1 : World)
    (hne : sp ≠ "")
    (hsave : A.save_hook w = .ok w1)
    (hval : A.snapshot_template.validate sp = true)
    (hex : pathExists w1
        (A.work_template.apply_fields (A.snapshot_template.get_fields sp)) = true) :
    (∀ e, do_snapshot A ts (A.work_template.apply_fields (A.snapshot_template.get_fields sp))
            false (some (autoRestoreComment sp)) w1 = .error e →
       restore_snapshot A ts sp w = .error e) ∧
    (∀ w2, do_snapshot A ts (A.work_template.apply_fields (A.snapshot_template.get_fields sp))
            false (some (autoRestoreComment sp)) w1 = .ok w2 →
       restore_snapshot A ts sp w =
         restore_copy_and_open A sp
           (A.work_template.apply_fields (A.snapshot_template.get_fields sp)) w2) := by
  constructor
  · intro e hds
    unfold restore_snapshot
    rw [if_neg hne, hsave]
    simp [hval, hex, hds]
  · intro w2 hds
    unfold restore_snapshot
    rw [if_neg hne, hsave]
    simp [hval, hex, hds]

/-- Witness for C1: the work file exists, the no-op copy hook makes the
safety snapshot fail its copy verification, and the restore surfaces that
error. -/
theorem restore_takes_safety_snapshot_witness :
    restore_snapshot appMain "2024-01-02-03-04-05" "d/S.ma" wMain =
      .error "Snapshot: Failed to copy work file from 'd/W.ma' to 'd/S2.ma'" :=
  (restore_takes_safety_snapshot appMain "2024-01-02-03-04-05" "d/S.ma" wMain wMain
    (by decide) rfl rfl rfl).1 _ rfl

/-- C8: a second write of the same comment for the same snapshot path
succeeds and leaves the filesystem (in particular the metadata store's
content) exactly as after the first write. -/
theorem add_snapshot_comment_idempotent (A : App) (p c : String) (w w1 : World)
    (h : add_snapshot_comment A p c w = .ok w1) :
    ∃ w2, add_snapshot_comment A p c w1 = .ok w2 ∧ w2.files = w1.files := by
  cases hval : A.snapshot_template.validate p with
  | false =>
      rw [add_snapshot_comment_invalid_eq A p c w hval] at h
      injection h with h
      subst h
      exact ⟨_, add_snapshot_comment_invalid_eq A p c _ hval, rfl⟩
  | true =>
      rw [add_snapshot_comment_valid_eq A p c w hval] at h
      cases hload : (if pathExists w (get_comments_file_path A p) then
                       yamlLoad ((alookup w.files (get_comments_file_path A p)).getD .badYaml)
                     else .ok []) with
      | error e =>
          rw [hload] at h
          exact Except.noConfusion h
      | ok comments =>
          rw [hload] at h
          injection h with h
          subst h
          have hlook : alookup
              (writeFile
                (logD w ("Snapshot: Adding comment to file " ++ get_comments_file_path A p))
                (get_comments_file_path A p)
                (Content.yamlMap (aset comments (basename p) c))).files
              (get_comments_file_path A p)
              = some (Content.yamlMap (aset comments (basename p) c)) := by
            simp [alookup_aset_self]
          have hpe : pathExists
              (writeFile
                (logD w ("Snapshot: Adding comment to file " ++ get_comments_file_path A p))
                (get_comments_file_path A p)
                (Content.yamlMap (aset comments (basename p) c)))
              (get_comments_file_path A p) = true := by
            rw [pathExists_eq, hlook]
            rfl
          refine ⟨writeFile
              (logD
                (writeFile
                  (logD w ("Snapshot: Adding comment to file " ++ get_comments_file_path A p))
                  (get_comments_file_path A p)
                  (Content.yamlMap (aset comments (basename p) c)))
                ("Snapshot: Adding comment to file " ++ get_comments_file_path A p))
              (get_comments_file_path A p)
              (Content.yamlMap (aset (aset comments (basename p) c) (basename p) c)),
            ?_, ?_⟩
          · rw [add_snapshot_comment_valid_eq A p c _ hval]
            rw [hpe]
            simp only [if_true]
            rw [hlook]
            rfl
          · simp [aset_aset_self]

/-- Witness for C8: a first comment write on an empty world, then the
same write again. -/
theorem add_snapshot_comment_idempotent_witness :
    ∃ w2, add_snapshot_comment appMain "d/S.ma" "hello" wAfterComment = .ok w2 ∧
      w2.files = wAfterComment.files :=
  add_snapshot_comment_idempotent appMain "d/S.ma" "hello" wEmpty wAfterComment rfl

/-- Follows the spec's wording for the store-key derivation: take the
snapshot path's template fields, force `version` to 0, re-derive the work
path, and use that work path's base name without extension, next to the
snapshot's directory. -/
def comments_path_spec (A : App) (p : Path) : Path :=
  dirname p ++ "/"
    ++ stripExt (basename (A.work_template.apply_fields
         (aset (A.snapshot_template.get_fields p) "version" (FVal.intV 0))))
    ++ ".tank_comments.yml"

/-- C9: the comments-store path follows the spec's derivation, and any two
snapshot paths of the same logical artifact (same directory, same fields
apart from version/increment/timestamp, under a work template that ignores
increment and timestamp) map to the same metadata store file. -/
theorem get_comments_file_path_unique (A : App) (p p1 p2 : Path)
    (hdir : dirname p1 = dirname p2)
    (hAgree : ∀ k, k ≠ "version" → k ≠ "increment" → k ≠ "timestamp" →
       alookup (A.snapshot_template.get_fields p1) k
         = alookup (A.snapshot_template.get_fields p2) k)
    (hwt : ∀ f1 f2 : Fields,
       (∀ k, k ≠ "increment" → k ≠ "timestamp" → alookup f1 k = alookup f2 k) →
       A.work_template.apply_fields f1 = A.work_template.apply_fields f2) :
    get_comments_file_path A p = comments_path_spec A p ∧
    get_comments_file_path A p1 = get_comments_file_path A p2 := by
  constructor
  · rfl
  · have hwp : A.work_template.apply_fields
          (aset (A.snapshot_template.get_fields p1) "version" (FVal.intV 0))
        = A.work_template.apply_fields
          (aset (A.snapshot_template.get_fields p2) "version" (FVal.intV 0)) := by
      apply hwt
      intro k hki hkt
      by_cases hkv : k = "version"
      · subst hkv
        rw [alookup_aset_self, alookup_aset_self]
      · rw [alookup_aset_ne _ _ _ _ hkv, alookup_aset_ne _ _ _ _ hkv]
        exact hAgree k hkv hki hkt
    simp only [get_comments_file_path]
    rw [hdir, hwp]

/-- Witness for C9 on two snapshot paths in the same directory. -/
theorem get_comments_file_path_unique_witness :
    get_comments_file_path appMain "d/Sa.ma" = comments_path_spec appMain "d/Sa.ma" ∧
    get_comments_file_path appMain "d/Sa.ma" = get_comments_file_path appMain "d/Sb.ma" :=
  get_comments_file_path_unique appMain "d/Sa.ma" "d/Sa.ma" "d/Sb.ma" rfl
    (fun _ _ _ _ => rfl)
    (fun f1 f2 hag => by
      show (if alookup f1 "version" = some (FVal.intV 0) then "d/W.v0.ma" else "d/W.ma")
          = (if alookup f2 "version" = some (FVal.intV 0) then "d/W.v0.ma" else "d/W.ma")
      rw [hag "version" (by decide) (by decide)])

/-- C3 counterexample: with a corrupt metadata store on disk, both the
comment read used by the history builder and the comment write used by
snapshot creation return the parse error instead of treating the store as
an empty mapping with a logged warning. -/
theorem malformed_store_counterexample :
    get_snapshot_comments appMain "d/S.ma" wBad
      = .error "yaml.load: could not parse comments file" ∧
    add_snapshot_comment appMain "d/S.ma" "hi" wBad
      = .error "yaml.load: could not parse comments file" := ⟨rfl, rfl⟩

/-- Amended C3: when the store content at the derived comments path is
malformed, the parse failure propagates as an error from
`_get_snapshot_comments` and (on a valid snapshot path) from
`_add_snapshot_comment`; it is not recovered as an empty mapping. -/
theorem malformed_store_raises (A : App) (p : Path) (c : String) (w : World)
    (hbad : alookup w.files (get_comments_file_path A p) = some Content.badYaml) :
    get_snapshot_comments A p w = .error "yaml.load: could not parse comments file" ∧
    (A.snapshot_template.validate p = true →
      add_snapshot_comment A p c w = .error "yaml.load: could not parse comments file") := by
  constructor
  · unfold get_snapshot_comments
    simp [pathExists_eq, hbad, yamlLoad]
  · intro hval
    rw [add_snapshot_comment_valid_eq A p c w hval]
    simp [pathExists_eq, hbad, yamlLoad]

/-- Witness for the amended C3 at the concrete corrupt store. -/
theorem malformed_store_raises_witness :
    get_snapshot_comments appMain "d/S.ma" wBad
      = .error "yaml.load: could not parse comments file" ∧
    (appMain.snapshot_template.validate "d/S.ma" = true →
      add_snapshot_comment appMain "d/S.ma" "hi" wBad
        = .error "yaml.load: could not parse comments file") :=
  malformed_store_raises appMain "d/S.ma" "hi" wBad rfl

/-- C4 counterexample: a listed snapshot whose timestamp field does not
parse with the fixed format makes `find_snapshot_history` raise; the entry
is not returned with its datetime omitted. -/
theorem history_unparseable_timestamp_counterexample :
    find_snapshot_history appBadTs "d/W.ma" wEmpty =
      .error "ValueError: time data 'not-a-timestamp' does not match format '%Y-%m-%d-%H-%M-%S'" :=
  rfl

/-- Amended C4: a present, truthy, unparsable timestamp on a listed
snapshot path causes `find_snapshot_history` to propagate the strptime
error instead of returning the entry without a datetime. -/
theorem history_unparseable_timestamp_raises (A : App) (p f0 : Path)
    (rest : List Path) (w : World) (cs : List (String × String)) (s : String)
    (hp : p ≠ "")
    (hv : A.work_template.validate p = true)
    (hfiles : A.paths_from_template (A.work_template.get_fields p)
        ["version", "timestamp", "increment"] = f0 :: rest)
    (hcom : get_snapshot_comments A f0 w = .ok cs)
    (hts : alookup (A.snapshot_template.get_fields f0) "timestamp" = some (FVal.strV s))
    (hsne : s ≠ "")
    (hbad : strptimeTS s = none) :
    find_snapshot_history A p w =
      .error ("ValueError: time data '" ++ s
              ++ "' does not match format '%Y-%m-%d-%H-%M-%S'") := by
  unfold find_snapshot_history
  rw [if_neg hp]
  simp only [hv, if_true]
  rw [hfiles]
  simp only []
  rw [hcom]
  simp only [history_loop, build_history_entry]
  rw [hts]
  simp [FVal.truthy, hsne, hbad]

/-- Witness for the amended C4 at the concrete bad-timestamp template. -/
theorem history_unparseable_timestamp_raises_witness :
    find_snapshot_history appBadTs "d/W.ma" wEmpty =
      .error ("ValueError: time data '" ++ "not-a-timestamp"
              ++ "' does not match format '%Y-%m-%d-%H-%M-%S'") :=
  history_unparseable_timestamp_raises appBadTs "d/W.ma" "d/S.ma" [] wEmpty []
    "not-a-timestamp" (by decide) rfl rfl rfl rfl (by decide) rfl

end TkSnapshot
